import Mathlib

/-!
# Stylesenses: the upload controller and result renderer of `main.js`

A shallow embedding of `src/main.js`.  The script is one closure over a handful of page
elements and the variable `selectedFile`; here that closure is the record `UI`, every
handler is a function `UI → UI`, and an element the script looks up and then guards with
`if (el)` is an `Option`.

Conventions of the embedding:

* a `classList` is the ordered token list of the element (`add`, `remove`, `toggle`,
  `contains` as in the DOM);
* markup assigned through `innerHTML` and colours assigned through `style` are kept as the
  assigned string;
* the elements the script looks up are pairwise distinct elements of the page;
* the response body has the shape of the `/analyze` contract, every field optional; numbers
  are integers (colour channels), whose JavaScript string form is decimal notation;
* `requests` and `settled` are bookkeeping of the `fetch` calls issued and of the responses
  delivered; the script itself keeps no such variable.
-/

namespace Stylesenses

/-! ## JavaScript helpers -/

/-- The operator `x || d` on an optional string: `undefined` and the empty string are falsy. -/
def strOr (x : Option String) (d : String) : String :=
  match x with
  | some v => if v = "" then d else v
  | none => d

/-- The operator `a ?? b` on optional values. -/
def nullish {α : Type} (a b : Option α) : Option α :=
  match a with
  | some v => some v
  | none => b

/-- The method `String.prototype.split` with a one-character separator, on characters. -/
def splitChars (sep : Char) : List Char → List (List Char)
  | [] => [[]]
  | c :: cs =>
    if c = sep then [] :: splitChars sep cs
    else
      match splitChars sep cs with
      | [] => [[c]]
      | seg :: segs => (c :: seg) :: segs

/-- The call `s.split(sep)`. -/
def split (s : String) (sep : Char) : List String :=
  (splitChars sep s.data).map String.mk

/-- The method `Array.prototype.pop`, as the value it returns. -/
def pop (xs : List String) : Option String :=
  xs.getLast?

/-- The method `String.prototype.toLowerCase`, restricted to the letters A to Z.  Outside ASCII
the method does more, but never to the effect that the result is an allow-listed extension:
the only other character it maps to a single ASCII letter is the Kelvin sign, to `k`. -/
def toLowerCase (s : String) : String :=
  String.mk (s.data.map Char.toLower)

/-- The method `String.prototype.toUpperCase`, on the letters a to z. -/
def toUpperCase (s : String) : String :=
  String.mk (s.data.map Char.toUpper)

/-- The method `classList.contains`. -/
def hasClass (cl : List String) (c : String) : Bool :=
  cl.contains c

/-- The method `classList.add`. -/
def addClass (cl : List String) (c : String) : List String :=
  if cl.contains c then cl else cl ++ [c]

/-- The method `classList.remove`. -/
def removeClass (cl : List String) (c : String) : List String :=
  cl.filter (fun x => x != c)

/-- The method `classList.toggle(c, force)`. -/
def toggleClass (cl : List String) (c : String) (force : Bool) : List String :=
  if force then addClass cl c else removeClass cl c

/-! ## Data model -/

/-- A `File`, as far as the script reads it. -/
structure File where
  name : String
  size : Nat
  deriving DecidableEq, Repr

/-- The element `#error-toast`. -/
structure ToastEl where
  textContent : String
  classList : List String
  deriving DecidableEq, Repr

/-- The element `#dropzone` with the two descendants `setFile` writes to, each of which may be
missing from the page. -/
structure DropzoneEl where
  classList : List String
  /-- The `innerHTML` of `.dropzone-text`. -/
  textEl : Option String
  /-- The `textContent` of `.dropzone-title`. -/
  titleEl : Option String
  deriving DecidableEq, Repr

/-- The element `#file-input`: its file list.  Assigning `value = ""` empties the list. -/
structure FileInputEl where
  files : List File
  deriving DecidableEq, Repr

/-- The element `#analyze-form`: the value of its checked `gender` input, if one is checked. -/
structure FormEl where
  checkedGender : Option String
  deriving DecidableEq, Repr

/-- The body of one `POST /analyze`: the two fields appended to the `FormData`. -/
structure Request where
  image : File
  gender : String
  deriving DecidableEq, Repr

/-- An element built by `renderResults`. -/
structure El where
  tag : String
  classList : List String
  /-- Attributes and properties assigned, in assignment order. -/
  attrs : List (String × String)
  textContent : Option String
  innerHTML : Option String
  deriving DecidableEq, Repr

/-- The method `getAttribute`. -/
def El.getAttribute (e : El) (name : String) : Option String :=
  e.attrs.lookup name

/-- The elements `renderResults` writes to.  The script dereferences them unguarded, so they
are part of every page the renderer runs on. -/
structure RenderDom where
  skinToneBadge : String
  faceMessage : String
  rgbValues : String
  /-- The value assigned to `style.backgroundColor` of `#rgb-swatch`. -/
  rgbSwatch : String
  reasoningText : String
  /-- The children of `#palette-grid`. -/
  paletteGrid : List El
  /-- The children of `#outfit-tabs`. -/
  outfitTabs : List El
  /-- The children of `#outfit-content`. -/
  outfitContent : List El
  hairstyleSuggestion : String
  maintenanceTips : String
  /-- The `innerHTML` of `#accessories-list`. -/
  accessoriesList : String
  /-- The children of `#shopping-links`. -/
  shoppingLinks : List El
  /-- The number of click listeners `renderResults` has added to `#outfit-tabs`. -/
  tabListeners : Nat
  deriving DecidableEq, Repr

/-- The state of the page as the script sees it. -/
structure UI where
  selectedFile : Option File
  form : Option FormEl
  fileInput : Option FileInputEl
  dropzone : Option DropzoneEl
  /-- The `disabled` flag of `#submit-btn`. -/
  submitBtn : Option Bool
  /-- The `classList` of `#loading`. -/
  loading : Option (List String)
  /-- The `classList` of `#results`. -/
  results : Option (List String)
  errorToast : Option ToastEl
  /-- The `classList` of the element `.styling-form`. -/
  formWrap : Option (List String)
  dom : RenderDom
  /-- The `fetch` calls issued so far. -/
  requests : List Request
  /-- The number of responses delivered so far. -/
  settled : Nat
  deriving DecidableEq, Repr

/-- The number of submissions whose response has not arrived. -/
def UI.inFlight (s : UI) : Nat :=
  s.requests.length - s.settled

/-! ## SelectionController -/

/-- The function `showToast` up to its timer. -/
def showToast (message : String) (s : UI) : UI :=
  match s.errorToast with
  | none => s
  | some t =>
    let shown : ToastEl :=
      { textContent := message
        classList := addClass (removeClass t.classList "hidden") "visible" }
    { s with errorToast := some shown }

/-- The callback `showToast` hands to `setTimeout`. -/
def toastTimeout (s : UI) : UI :=
  let expire (t : ToastEl) : ToastEl := { t with classList := removeClass t.classList "visible" }
  { s with errorToast := s.errorToast.map expire }

/-- The function `enableSubmit`. -/
def enableSubmit (s : UI) : UI :=
  { s with submitBtn := s.submitBtn.map fun _ => s.selectedFile.isNone }

/-- The function `setFile`. -/
def setFile (file : Option File) (s : UI) : UI :=
  let s := { s with selectedFile := file }
  match s.dropzone with
  | none => enableSubmit s
  | some dz =>
    match file with
    | some f =>
      let dz1 : DropzoneEl :=
        { classList := addClass dz.classList "has-file"
          textEl := dz.textEl.map fun _ => "Selected: <strong>" ++ f.name ++ "</strong>"
          titleEl := dz.titleEl.map fun _ => "Selected: " ++ f.name }
      enableSubmit
        { s with
          dropzone := some dz1
          formWrap := s.formWrap.map fun cl => removeClass cl "hidden" }
    | none =>
      let dz1 : DropzoneEl :=
        { classList := removeClass dz.classList "has-file"
          textEl := dz.textEl.map fun _ =>
            "Drag & drop your photo here, or <strong>click to browse</strong>"
          titleEl := dz.titleEl.map fun _ => "Drag & Drop Your Photo" }
      enableSubmit
        { s with
          dropzone := some dz1
          formWrap := s.formWrap.map fun cl => addClass cl "hidden"
          fileInput := s.fileInput.map fun _ => FileInputEl.mk [] }

/-- The `dragover` listener of the dropzone. -/
def onDragover (s : UI) : UI :=
  let over (dz : DropzoneEl) : DropzoneEl := { dz with classList := addClass dz.classList "dragover" }
  { s with dropzone := s.dropzone.map over }

/-- The `dragleave` listener of the dropzone. -/
def onDragleave (s : UI) : UI :=
  let leave (dz : DropzoneEl) : DropzoneEl :=
    { dz with classList := removeClass dz.classList "dragover" }
  { s with dropzone := s.dropzone.map leave }

/-- The extension allow-list of the drop listener. -/
def allowedExt : List String := ["png", "jpg", "jpeg", "gif", "webp"]

/-- The size ceiling of the drop listener. -/
def maxSize : Nat := 10 * 1024 * 1024

/-- The text of the notification for a rejected extension. -/
def invalidTypeMsg : String := "Invalid file type. Use PNG, JPG, JPEG, GIF or WebP."

/-- The text of the notification for a rejected size. -/
def tooLargeMsg : String := "File too large. Maximum size is 10MB."

/-- The expression `(f.name.split(".").pop() || "").toLowerCase()`. -/
def extOf (name : String) : String :=
  toLowerCase (strOr (pop (split name '.')) "")

/-- The `drop` listener of the dropzone; `files` is `e.dataTransfer && e.dataTransfer.files`.
The listener exists only on a page with a dropzone. -/
def onDrop (files : Option (List File)) (s : UI) : UI :=
  match s.dropzone with
  | none => s
  | some dz =>
    let dz1 : DropzoneEl := { dz with classList := removeClass dz.classList "dragover" }
    let s := { s with dropzone := some dz1 }
    match files with
    | some (f :: rest) =>
      let ext := extOf f.name
      if !(allowedExt.contains ext) then showToast invalidTypeMsg s
      else if f.size > maxSize then showToast tooLargeMsg s
      else
        let s := setFile (some f) s
        { s with fileInput := s.fileInput.map fun _ => FileInputEl.mk (f :: rest) }
    | _ => s

/-- The `change` listener of the file input.  The listener exists only on a page with a file
input. -/
def onChange (s : UI) : UI :=
  match s.fileInput with
  | none => s
  | some fi =>
    match fi.files with
    | f :: _ => setFile (some f) s
    | [] => setFile none s

/-- The user picks `files` in the file picker: the browser stores them in the input and fires
`change`. -/
def pickFiles (files : List File) (s : UI) : UI :=
  onChange { s with fileInput := s.fileInput.map fun _ => FileInputEl.mk files }

/-! ## The response of `/analyze` -/

/-- Modelled from the spec: the value of one dress code in the response body (the script only
reads it; its type is the response contract). -/
structure Outfit where
  tops : Option String
  bottoms : Option String
  shoes : Option String
  deriving DecidableEq, Repr

/-- Modelled from the spec: the `color_palette` object of the response body. -/
structure Palette where
  primary : Option String
  secondary : Option String
  accent : Option String
  deriving DecidableEq, Repr

/-- Modelled from the spec: the `dress_codes` object of the response body. -/
structure DressCodes where
  formal : Option Outfit
  business : Option Outfit
  casual : Option Outfit
  party : Option Outfit
  deriving DecidableEq, Repr

/-- Modelled from the spec: the `hairstyle` object of the response body. -/
structure Hairstyle where
  suggestion : Option String
  maintenance_tips : Option String
  deriving DecidableEq, Repr

/-- Modelled from the spec: the `accessories` object of the response body. -/
structure Accessories where
  earrings : Option String
  necklaces : Option String
  bracelets : Option String
  watches : Option String
  deriving DecidableEq, Repr

/-- Modelled from the spec: the `recommendations` object of the response body.  The entries of
`shopping_links` are listed in the order of `Object.keys`; a value may be `null`. -/
structure Recommendations where
  reasoning : Option String
  color_palette : Option Palette
  dress_codes : Option DressCodes
  hairstyle : Option Hairstyle
  accessories : Option Accessories
  shopping_links : Option (List (String × Option String))
  deriving DecidableEq, Repr

/-- Modelled from the spec: the response body of `/analyze`, every field optional.  A slot of
`rgb` may be `null`, and the array may have fewer than three slots. -/
structure Payload where
  r : Option Int
  g : Option Int
  b : Option Int
  rgb : Option (List (Option Int))
  skin_tone : Option String
  message : Option String
  recommendations : Option Recommendations
  error : Option String
  deriving DecidableEq, Repr

/-- The empty object literal that stands in for a missing `rec.dress_codes[code]`. -/
def Outfit.empty : Outfit := ⟨none, none, none⟩

/-- The empty object literal that stands in for a missing `rec.color_palette`. -/
def Palette.empty : Palette := ⟨none, none, none⟩

/-- The empty object literal that stands in for a missing `rec.dress_codes`. -/
def DressCodes.empty : DressCodes := ⟨none, none, none, none⟩

/-- The empty object literal that stands in for a missing `rec.hairstyle`. -/
def Hairstyle.empty : Hairstyle := ⟨none, none⟩

/-- The empty object literal that stands in for a missing `rec.accessories`. -/
def Accessories.empty : Accessories := ⟨none, none, none, none⟩

/-- The empty object literal that stands in for a missing `data.recommendations`. -/
def Recommendations.empty : Recommendations := ⟨none, none, none, none, none, none⟩

/-- The property access `palette[key]`. -/
def Palette.get (p : Palette) (key : String) : Option String :=
  if key = "primary" then p.primary
  else if key = "secondary" then p.secondary
  else if key = "accent" then p.accent
  else none

/-- The property access `dressCodes[code]`. -/
def DressCodes.get (dc : DressCodes) (code : String) : Option Outfit :=
  if code = "formal" then dc.formal
  else if code = "business" then dc.business
  else if code = "casual" then dc.casual
  else if code = "party" then dc.party
  else none

/-- The string form of a channel value inside a concatenation. -/
def jsStr : Option Int → String
  | some n => toString n
  | none => "undefined"

/-- The indexing `rgb[i]`: `undefined` past the end, and a `null` slot is nullish as well. -/
def index (rgb : List (Option Int)) (i : Nat) : Option Int :=
  (rgb.get? i).join

/-- The expression `key.charAt(0).toUpperCase() + key.slice(1)`. -/
def capitalized (key : String) : String :=
  toUpperCase (String.mk (key.data.take 1)) ++ String.mk (key.data.drop 1)

/-! ## SubmissionRenderer -/

/-- The dress codes, in the order `renderResults` lists them. -/
def codes : List String := ["formal", "business", "casual", "party"]

/-- The palette keys, in the order `renderResults` lists them. -/
def paletteKeys : List String := ["primary", "secondary", "accent"]

/-- The function `renderResults`. -/
def renderResults (data : Payload) (dom : RenderDom) : RenderDom :=
  let r := data.r
  let g := data.g
  let b := data.b
  let rgb : List (Option Int) :=
    match data.rgb with
    | some triple => triple
    | none => [r, g, b]
  let skinToneBadge := strOr data.skin_tone "—"
  let faceMessage := strOr data.message ""
  let rgbValues :=
    "R " ++ jsStr (nullish (index rgb 0) r) ++ " · G " ++ jsStr (nullish (index rgb 1) g)
      ++ " · B " ++ jsStr (nullish (index rgb 2) b)
  let rgbSwatch :=
    "rgb(" ++ jsStr (nullish (index rgb 0) r) ++ "," ++ jsStr (nullish (index rgb 1) g)
      ++ "," ++ jsStr (nullish (index rgb 2) b) ++ ")"
  let rec_ := data.recommendations.getD Recommendations.empty
  let reasoningText :=
    strOr rec_.reasoning "Recommendations are tailored to your skin tone and gender."
  let palette := rec_.color_palette.getD Palette.empty
  let paletteGrid : List El :=
    paletteKeys.foldl
      (fun grid key =>
        let label := capitalized key
        let value := strOr (palette.get key) "—"
        let div : El :=
          { tag := "div"
            classList := ["palette-item"]
            attrs := []
            textContent := none
            innerHTML := some ("<strong>" ++ label ++ "</strong><span>" ++ value ++ "</span>") }
        grid ++ [div])
      []
  let dressCodes := rec_.dress_codes.getD DressCodes.empty
  let built : List El × List El :=
    codes.enum.foldl
      (fun acc ic =>
        let i := ic.1
        let code := ic.2
        let tab : El :=
          { tag := "button"
            classList := "outfit-tab" :: (if i = 0 then ["active"] else [])
            attrs := [("type", "button"), ("data-code", code)]
            textContent := some (capitalized code)
            innerHTML := none }
        let outfit := (dressCodes.get code).getD Outfit.empty
        let panel : El :=
          { tag := "div"
            classList := "outfit-panel" :: (if i = 0 then ["active"] else [])
            attrs := [("data-code", code)]
            textContent := none
            innerHTML := some
              ("<dl>" ++
               "<dt>Tops</dt><dd>" ++ strOr outfit.tops "—" ++ "</dd>" ++
               "<dt>Bottoms</dt><dd>" ++ strOr outfit.bottoms "—" ++ "</dd>" ++
               "<dt>Shoes</dt><dd>" ++ strOr outfit.shoes "—" ++ "</dd>" ++
               "</dl>") }
        (acc.1 ++ [tab], acc.2 ++ [panel]))
      ([], [])
  let hair := rec_.hairstyle.getD Hairstyle.empty
  let acc := rec_.accessories.getD Accessories.empty
  let accessoriesList :=
    "<li><strong>Earrings:</strong> " ++ strOr acc.earrings "—" ++ "</li>" ++
    "<li><strong>Necklaces:</strong> " ++ strOr acc.necklaces "—" ++ "</li>" ++
    "<li><strong>Bracelets:</strong> " ++ strOr acc.bracelets "—" ++ "</li>" ++
    "<li><strong>Watches:</strong> " ++ strOr acc.watches "—" ++ "</li>"
  let links := rec_.shopping_links.getD []
  let shoppingLinks : List El :=
    (links.map Prod.fst).foldl
      (fun els name =>
        let a : El :=
          { tag := "a"
            classList := ["shopping-link"]
            attrs :=
              [("href", strOr (links.lookup name).join "#"), ("target", "_blank"),
               ("rel", "noopener noreferrer")]
            textContent := some name
            innerHTML := none }
        els ++ [a])
      []
  { skinToneBadge := skinToneBadge
    faceMessage := faceMessage
    rgbValues := rgbValues
    rgbSwatch := rgbSwatch
    reasoningText := reasoningText
    paletteGrid := paletteGrid
    outfitTabs := built.1
    outfitContent := built.2
    hairstyleSuggestion := strOr hair.suggestion "—"
    maintenanceTips := strOr hair.maintenance_tips "—"
    accessoriesList := accessoriesList
    shoppingLinks := shoppingLinks
    tabListeners := dom.tabListeners + 1 }

/-- One run of the click listener `renderResults` adds to `#outfit-tabs`; the target `t` of the
click is the child of `#outfit-tabs` at that position. -/
def tabListener (t : Nat) (dom : RenderDom) : RenderDom :=
  match dom.outfitTabs.get? t with
  | none => dom
  | some target =>
    if !(hasClass target.classList "outfit-tab") then dom
    else
      let tabs := dom.outfitTabs.enum.map fun jel =>
        if hasClass jel.2.classList "outfit-tab" then
          { jel.2 with classList := toggleClass jel.2.classList "active" (jel.1 == t) }
        else jel.2
      let panels := dom.outfitContent.map fun el =>
        if hasClass el.classList "outfit-panel" then
          { el with classList := toggleClass el.classList "active"
                      (el.getAttribute "data-code" == target.getAttribute "data-code") }
        else el
      { dom with outfitTabs := tabs, outfitContent := panels }

/-- A click on the child `t` of `#outfit-tabs`: every listener added so far runs, in order. -/
def onTabClick (t : Nat) (dom : RenderDom) : RenderDom :=
  Nat.iterate (tabListener t) dom.tabListeners dom

/-- The `submit` listener of the form, up to the arrival of the response.  The listener exists
only on a page with the form. -/
def onSubmit (s : UI) : UI :=
  match s.form with
  | none => s
  | some form =>
    match s.selectedFile with
    | none => s
    | some file =>
      let gender :=
        match form.checkedGender with
        | some value => value
        | none => "Female"
      let fd : Request := { image := file, gender := gender }
      { s with
        loading := s.loading.map fun cl => removeClass cl "hidden"
        results := s.results.map fun cl => addClass cl "hidden"
        submitBtn := s.submitBtn.map fun _ => true
        requests := s.requests ++ [fd] }

/-- What comes back from `fetch`: a rejection, or a response with its `ok` flag and the outcome
of `res.json()`, which is the parsed body or the message of the parse error. -/
inductive Response
  | rejected (message : String)
  | http (ok : Bool) (body : Except String Payload)

/-- The first `then` callback of the chain: the body on success, otherwise the `message` of the
error the chain carries to `catch`. -/
def settle : Response → Except String Payload
  | .rejected message => .error message
  | .http _ (.error message) => .error message
  | .http ok (.ok data) =>
    if !ok then .error (strOr data.error "Request failed") else .ok data

/-- The second `then` callback: the success path. -/
def onSuccess (data : Payload) (s : UI) : UI :=
  let s :=
    { s with
      loading := s.loading.map fun cl => addClass cl "hidden"
      submitBtn := s.submitBtn.map fun _ => false }
  let s := { s with dom := renderResults data s.dom }
  { s with results := s.results.map fun cl => removeClass cl "hidden" }

/-- The `catch` callback: the failure path, for an error with the given `message`. -/
def onFailure (message : String) (s : UI) : UI :=
  let s :=
    { s with
      loading := s.loading.map fun cl => addClass cl "hidden"
      submitBtn := s.submitBtn.map fun _ => false }
  let s := enableSubmit s
  match s.errorToast with
  | some _ => showToast (strOr (some message) "Something went wrong. Please try again.") s
  | none => s

/-- The promise chain of the `submit` listener, run on the response. -/
def onResponse (resp : Response) (s : UI) : UI :=
  match settle resp with
  | .ok data => onSuccess data s
  | .error message => onFailure message s

/-! ## The event loop -/

/-- The events of the page. -/
inductive Event
  | pick (files : List File)
  | drop (files : Option (List File))
  | dragover
  | dragleave
  | submit
  | response (resp : Response)
  | tabClick (t : Nat)
  | toastTimeout

/-- One turn of the event loop.  The browser does not submit a form through a disabled submit
control, and a response arrives only for a submission that is in flight. -/
def step (s : UI) : Event → UI
  | .pick files => pickFiles files s
  | .drop files => onDrop files s
  | .dragover => onDragover s
  | .dragleave => onDragleave s
  | .submit => if s.submitBtn = some true then s else onSubmit s
  | .response resp =>
    if s.inFlight = 0 then s else onResponse resp { s with settled := s.settled + 1 }
  | .tabClick t => { s with dom := onTabClick t s.dom }
  | .toastTimeout => toastTimeout s

/-- A run of the event loop. -/
def run (s : UI) (events : List Event) : UI :=
  events.foldl step s

/-! ## Sample inputs -/

/-- The render targets before the first render. -/
def emptyDom : RenderDom :=
  { skinToneBadge := ""
    faceMessage := ""
    rgbValues := ""
    rgbSwatch := ""
    reasoningText := ""
    paletteGrid := []
    outfitTabs := []
    outfitContent := []
    hairstyleSuggestion := ""
    maintenanceTips := ""
    accessoriesList := ""
    shoppingLinks := []
    tabListeners := 0 }

/-- A page that has every element the script looks up, before any interaction: nothing is
selected, the submit control is disabled, and the form, the loading indicator, the results
panel and the toast are hidden. -/
def page : UI :=
  { selectedFile := none
    form := some ⟨none⟩
    fileInput := some ⟨[]⟩
    dropzone := some ⟨["dropzone"], some "", some "Drag & Drop Your Photo"⟩
    submitBtn := some true
    loading := some ["loading", "hidden"]
    results := some ["results", "hidden"]
    errorToast := some ⟨"", ["toast", "hidden"]⟩
    formWrap := some ["styling-form", "hidden"]
    dom := emptyDom
    requests := []
    settled := 0 }

/-- A photo of 2 MiB. -/
def photo : File := ⟨"portrait.JPG", 2097152⟩

/-- A second photo. -/
def photo2 : File := ⟨"selfie.png", 1048576⟩

/-- A text file. -/
def notes : File := ⟨"notes.txt", 12⟩

/-- A file of one byte more than 10 MiB whose extension is not allow-listed. -/
def bigText : File := ⟨"big.txt", 10485761⟩

/-- A photo of one byte more than 10 MiB. -/
def bigPhoto : File := ⟨"big.webp", 10485761⟩

/-- A photo of exactly 10 MiB. -/
def tenMiB : File := ⟨"exact.gif", 10485760⟩

/-- A response body without any field. -/
def emptyPayload : Payload := ⟨none, none, none, none, none, none, none, none⟩

/-! ## Specification-side definitions and shapes used in the proofs -/

/-- The channel the specification describes: slot `i` of the triple when the triple has that
slot, the discrete field otherwise. -/
def specChannel (triple : Option (List (Option Int))) (i : Nat) (discrete : Option Int) :
    Option Int :=
  match triple with
  | some slots =>
    match slots.get? i with
    | some (some v) => some v
    | _ => discrete
  | none => discrete

/-- The tab `renderResults` builds at position `i` for `code`, with the class `active` exactly
when `i` is `k`. -/
def tabEl (k i : Nat) (code : String) : El :=
  { tag := "button"
    classList := "outfit-tab" :: (if i = k then ["active"] else [])
    attrs := [("type", "button"), ("data-code", code)]
    textContent := some (capitalized code)
    innerHTML := none }

/-- The panel `renderResults` builds at position `i` for `code`, with the class `active`
exactly when `i` is `k`. -/
def panelEl (k i : Nat) (code : String) (html : Option String) : El :=
  { tag := "div"
    classList := "outfit-panel" :: (if i = k then ["active"] else [])
    attrs := [("data-code", code)]
    textContent := none
    innerHTML := html }

/-- The four tabs with the one at position `k` active. -/
def tabsAt (k : Nat) : List El :=
  [tabEl k 0 "formal", tabEl k 1 "business", tabEl k 2 "casual", tabEl k 3 "party"]

/-- The four panels with the one at position `k` active. -/
def panelsAt (k : Nat) (html : Nat → Option String) : List El :=
  [panelEl k 0 "formal" (html 0), panelEl k 1 "business" (html 1),
   panelEl k 2 "casual" (html 2), panelEl k 3 "party" (html 3)]

/-- The inner markup `renderResults` gives the panel at position `i` for the payload. -/
def panelHtml (data : Payload) (i : Nat) : Option String :=
  ((renderResults data emptyDom).outfitContent.get? i).bind fun el => el.innerHTML

/-- The render calls of a session, oldest first, run on the render targets. -/
def renderAll (dom : RenderDom) (payloads : List Payload) : RenderDom :=
  payloads.foldl (fun acc data => renderResults data acc) dom

/-- The two fallback texts written in the failure path. -/
def genericFallbacks : List String :=
  ["Request failed", "Something went wrong. Please try again."]

/-- The text the failure path hands to `showToast`, case by case: for a failure status the
`error` text of the body when it has a non-empty one and "Request failed" otherwise; for a
rejected request or an unparsable body the message of the exception when it is non-empty and
"Something went wrong. Please try again." otherwise. -/
def failureText : Response → String
  | .rejected message => strOr (some message) "Something went wrong. Please try again."
  | .http _ (.error message) => strOr (some message) "Something went wrong. Please try again."
  | .http _ (.ok data) => strOr data.error "Request failed"

/-- The invariant of the selection: an empty selection has the submit control disabled. -/
def EmptyDisables (s : UI) : Prop :=
  s.selectedFile = none → s.submitBtn ≠ some false

/-! ## Lemmas on the helpers -/

theorem hasClass_addClass (cl : List String) (c : String) : hasClass (addClass cl c) c = true := by
  unfold hasClass addClass
  split <;> simp_all

theorem hasClass_removeClass (cl : List String) (c : String) :
    hasClass (removeClass cl c) c = false := by
  simp [hasClass, removeClass]

theorem hasClass_addClass_of_ne (cl : List String) (c d : String) (h : d ≠ c) :
    hasClass (addClass cl c) d = hasClass cl d := by
  unfold hasClass addClass
  split
  · rfl
  · simp [List.contains_eq_any_beq, h]

theorem getLast_snoc {α : Type} (x : α) (l : List α) (y : α) :
    (x :: (l ++ [y])).getLast? = some y := by
  rw [← List.cons_append, List.getLast?_append]
  simp

theorem splitChars_of_not_mem (sep : Char) (b : List Char) (hb : sep ∉ b) :
    splitChars sep b = [b] := by
  induction b with
  | nil => rfl
  | cons c cs ih =>
    have hc : c ≠ sep := fun h => hb (by simp [h])
    have hcs : sep ∉ cs := fun h => hb (by simp [h])
    simp [splitChars, hc, ih hcs]

theorem splitChars_append (sep : Char) (a b : List Char) (hb : sep ∉ b) :
    ∃ x xs, splitChars sep (a ++ sep :: b) = x :: (xs ++ [b]) := by
  induction a with
  | nil => exact ⟨[], [], by simp [splitChars, splitChars_of_not_mem sep b hb]⟩
  | cons c cs ih =>
    obtain ⟨x, xs, h⟩ := ih
    by_cases hc : c = sep
    · exact ⟨[], x :: xs, by simp [splitChars, hc, ← h]⟩
    · exact ⟨c :: x, xs, by simp [splitChars, hc, h]⟩

/-- The extension of `stem.e` is `e` lower-cased, for every spelling `e` of an allow-listed
extension. -/
theorem extOf_append (stem e : String) (he : toLowerCase e ∈ allowedExt) :
    extOf (stem ++ "." ++ e) = toLowerCase e := by
  have hdot : '.' ∉ e.data := by
    intro hmem
    have h1 : Char.toLower '.' ∈ (toLowerCase e).data := by
      simp only [toLowerCase]
      exact List.mem_map_of_mem _ hmem
    simp only [allowedExt, List.mem_cons, List.mem_singleton, List.not_mem_nil, or_false] at he
    rcases he with h | h | h | h | h <;> rw [h] at h1 <;> revert h1 <;> decide
  obtain ⟨x, xs, h⟩ := splitChars_append '.' stem.data e.data hdot
  have hdata : (stem ++ "." ++ e).data = stem.data ++ '.' :: e.data := by
    simp [String.data_append]
  have hpop : pop (split (stem ++ "." ++ e) '.') = some e := by
    simp [pop, split, hdata, h, getLast_snoc]
  simp only [extOf, hpop, strOr]
  split <;> simp_all

theorem showToast_selectedFile (m : String) (s : UI) :
    (showToast m s).selectedFile = s.selectedFile := by
  unfold showToast
  split <;> rfl

theorem showToast_errorToast (m : String) (s : UI) (t : ToastEl) (h : s.errorToast = some t) :
    (showToast m s).errorToast
      = some ⟨m, addClass (removeClass t.classList "hidden") "visible"⟩ := by
  simp [showToast, h]

theorem onDrop_invalid (s : UI) (dz : DropzoneEl) (f : File) (rest : List File)
    (hdz : s.dropzone = some dz) (h : extOf f.name ∉ allowedExt) :
    onDrop (some (f :: rest)) s = showToast invalidTypeMsg (onDragleave s) := by
  simp [onDrop, hdz, onDragleave, h]

theorem onDrop_tooLarge (s : UI) (dz : DropzoneEl) (f : File) (rest : List File)
    (hdz : s.dropzone = some dz) (h : extOf f.name ∈ allowedExt) (hsz : f.size > maxSize) :
    onDrop (some (f :: rest)) s = showToast tooLargeMsg (onDragleave s) := by
  simp [onDrop, hdz, onDragleave, h, hsz]

theorem onDrop_accept (s : UI) (dz : DropzoneEl) (f : File) (rest : List File)
    (hdz : s.dropzone = some dz) (h : extOf f.name ∈ allowedExt) (hsz : f.size ≤ maxSize) :
    (onDrop (some (f :: rest)) s).selectedFile = some f ∧
    (onDrop (some (f :: rest)) s).errorToast = s.errorToast ∧
    (onDrop (some (f :: rest)) s).submitBtn = s.submitBtn.map (fun _ => false) := by
  have hsz2 : ¬ f.size > maxSize := Nat.not_lt.mpr hsz
  simp [onDrop, hdz, h, hsz2, setFile, enableSubmit]

/-! ## The claims -/

/-- C1: on a page with the dropzone, a drop whose first file has an extension outside the
allow-list leaves `selectedFile` as it was and does exactly `showToast` with the InvalidType
text, so the toast element carries that text, is visible and not hidden; conversely a first
file whose extension lower-cases to an allow-listed one passes the check, whatever the letter
case in which `stem.e` spells it, and becomes the selection when it is within the size
ceiling. -/
theorem C1_drop_invalid_type (s : UI) (dz : DropzoneEl) (f : File) (rest : List File)
    (hdz : s.dropzone = some dz) :
    (extOf f.name ∉ allowedExt →
      (onDrop (some (f :: rest)) s).selectedFile = s.selectedFile ∧
      onDrop (some (f :: rest)) s = showToast invalidTypeMsg (onDragleave s) ∧
      ∀ t, s.errorToast = some t →
        ∃ cl, (onDrop (some (f :: rest)) s).errorToast = some ⟨invalidTypeMsg, cl⟩ ∧
          hasClass cl "visible" = true ∧ hasClass cl "hidden" = false) ∧
    (extOf f.name ∈ allowedExt → f.size ≤ maxSize →
      (onDrop (some (f :: rest)) s).selectedFile = some f ∧
      (onDrop (some (f :: rest)) s).errorToast = s.errorToast) ∧
    (∀ stem e : String, toLowerCase e ∈ allowedExt →
      extOf (stem ++ "." ++ e) = toLowerCase e) := by
  refine ⟨fun h => ?_, fun h hsz => ?_, extOf_append⟩
  · have heq := onDrop_invalid s dz f rest hdz h
    refine ⟨?_, heq, fun t ht => ?_⟩
    · rw [heq, showToast_selectedFile]; rfl
    · refine ⟨addClass (removeClass t.classList "hidden") "visible", ?_, ?_, ?_⟩
      · rw [heq]; exact showToast_errorToast _ _ t (by simpa [onDragleave] using ht)
      · exact hasClass_addClass _ _
      · rw [hasClass_addClass_of_ne _ _ _ (by decide)]; exact hasClass_removeClass _ _
  · exact ⟨(onDrop_accept s dz f rest hdz h hsz).1, (onDrop_accept s dz f rest hdz h hsz).2.1⟩

/-- C1, on the sample page: dropping `notes.txt` selects nothing and shows the InvalidType text,
and dropping `portrait.JPG` selects it. -/
theorem C1_drop_invalid_type_witness :
    (onDrop (some [notes]) page).selectedFile = none ∧
    (onDrop (some [notes]) page).errorToast = some ⟨invalidTypeMsg, ["toast", "visible"]⟩ ∧
    (onDrop (some [photo]) page).selectedFile = some photo ∧
    extOf ("portrait" ++ "." ++ "JPG") = "jpg" := by
  refine ⟨?_, by decide, ?_, ?_⟩
  · exact ((C1_drop_invalid_type page _ notes [] rfl).1 (by decide)).1
  · exact ((C1_drop_invalid_type page _ photo [] rfl).2.1 (by decide) (by decide)).1
  · exact (C1_drop_invalid_type page _ photo [] rfl).2.2 "portrait" "JPG" (by decide)

/-- C2, as stated, fails: `big.txt` is larger than 10 MiB, yet its drop shows the InvalidType
text, not the TooLarge one. -/
theorem C2_counterexample :
    bigText.size > maxSize ∧
    (onDrop (some [bigText]) page).errorToast = some ⟨invalidTypeMsg, ["toast", "visible"]⟩ ∧
    (onDrop (some [bigText]) page).errorToast
      ≠ (showToast tooLargeMsg (onDragleave page)).errorToast := by
  decide

/-- C2, amended: on a page with the dropzone, a drop whose first file has an allow-listed
extension and more than 10 MiB leaves `selectedFile` as it was and does exactly `showToast`
with the TooLarge text, so the toast element carries that text, is visible and not hidden;
with exactly 10 MiB the file is not rejected: it becomes the selection and the toast is left
alone. -/
theorem C2_drop_too_large (s : UI) (dz : DropzoneEl) (f : File) (rest : List File)
    (hdz : s.dropzone = some dz) (hext : extOf f.name ∈ allowedExt) :
    (f.size > maxSize →
      (onDrop (some (f :: rest)) s).selectedFile = s.selectedFile ∧
      onDrop (some (f :: rest)) s = showToast tooLargeMsg (onDragleave s) ∧
      ∀ t, s.errorToast = some t →
        ∃ cl, (onDrop (some (f :: rest)) s).errorToast = some ⟨tooLargeMsg, cl⟩ ∧
          hasClass cl "visible" = true ∧ hasClass cl "hidden" = false) ∧
    (f.size = 10 * 1024 * 1024 →
      (onDrop (some (f :: rest)) s).selectedFile = some f ∧
      (onDrop (some (f :: rest)) s).errorToast = s.errorToast) := by
  refine ⟨fun h => ?_, fun hsz => ?_⟩
  · have heq := onDrop_tooLarge s dz f rest hdz hext h
    refine ⟨?_, heq, fun t ht => ?_⟩
    · rw [heq, showToast_selectedFile]; rfl
    · refine ⟨addClass (removeClass t.classList "hidden") "visible", ?_, ?_, ?_⟩
      · rw [heq]; exact showToast_errorToast _ _ t (by simpa [onDragleave] using ht)
      · exact hasClass_addClass _ _
      · rw [hasClass_addClass_of_ne _ _ _ (by decide)]; exact hasClass_removeClass _ _
  · have hle : f.size ≤ maxSize := by rw [hsz]; decide
    exact ⟨(onDrop_accept s dz f rest hdz hext hle).1, (onDrop_accept s dz f rest hdz hext hle).2.1⟩

/-- C2, amended, on the sample page: dropping `big.webp` selects nothing and shows the TooLarge
text, and dropping `exact.gif` of 10 MiB selects it. -/
theorem C2_drop_too_large_witness :
    (onDrop (some [bigPhoto]) page).selectedFile = none ∧
    (onDrop (some [bigPhoto]) page).errorToast = some ⟨tooLargeMsg, ["toast", "visible"]⟩ ∧
    (onDrop (some [tenMiB]) page).selectedFile = some tenMiB := by
  refine ⟨?_, by decide, ?_⟩
  · exact ((C2_drop_too_large page _ bigPhoto [] rfl (by decide)).1 (by decide)).1
  · exact ((C2_drop_too_large page _ tenMiB [] rfl (by decide)).2 (by decide)).1

/-- C3: with an empty selection the submit listener returns the state it was given: no request
is added, and the loading indicator, the results panel and the submit control are as before;
the same holds for the submit event of the event loop. -/
theorem C3_submit_empty_noop (s : UI) (h : s.selectedFile = none) :
    onSubmit s = s ∧ step s Event.submit = s ∧
    (onSubmit s).requests = s.requests ∧ (onSubmit s).loading = s.loading ∧
    (onSubmit s).results = s.results ∧ (onSubmit s).submitBtn = s.submitBtn := by
  have h1 : onSubmit s = s := by
    unfold onSubmit
    cases hf : s.form <;> simp [h]
  refine ⟨h1, ?_, by rw [h1], by rw [h1], by rw [h1], by rw [h1]⟩
  simp only [step]
  split <;> simp [h1]

/-- C3, on the sample page, where nothing is selected. -/
theorem C3_submit_empty_noop_witness :
    onSubmit page = page ∧ (step page Event.submit).requests = [] := by
  have h := C3_submit_empty_noop page rfl
  exact ⟨h.1, by rw [h.2.1]; rfl⟩

theorem channel_eq (data : Payload) (i : Nat) (x : Option Int)
    (hx : [data.r, data.g, data.b].get? i = some x) :
    nullish
        (index (match data.rgb with
          | some triple => triple
          | none => [data.r, data.g, data.b]) i) x
      = specChannel data.rgb i x := by
  cases hrgb : data.rgb with
  | none =>
    simp only [specChannel, index, hx, Option.join]
    cases x <;> rfl
  | some slots =>
    simp only [specChannel, index]
    cases hs : slots.get? i with
    | none => rfl
    | some v => cases v <;> rfl

/-- C4: for every payload the RGB text and the swatch colour are built, channel by channel, from
slot `i` of `rgb` when the triple has that slot and from the discrete field `r`, `g` or `b`
otherwise; for `rgb = [10,20,30]` the text is "R 10 · G 20 · B 30" and the swatch colour
"rgb(10,20,30)", whatever `r`, `g` and `b` are. -/
theorem C4_rgb_triple_preferred (data : Payload) (dom : RenderDom) :
    (renderResults data dom).rgbValues
      = "R " ++ jsStr (specChannel data.rgb 0 data.r) ++ " · G "
          ++ jsStr (specChannel data.rgb 1 data.g) ++ " · B "
          ++ jsStr (specChannel data.rgb 2 data.b) ∧
    (renderResults data dom).rgbSwatch
      = "rgb(" ++ jsStr (specChannel data.rgb 0 data.r) ++ ","
          ++ jsStr (specChannel data.rgb 1 data.g) ++ ","
          ++ jsStr (specChannel data.rgb 2 data.b) ++ ")" ∧
    (data.rgb = some [some 10, some 20, some 30] →
      (renderResults data dom).rgbValues = "R 10 · G 20 · B 30" ∧
      (renderResults data dom).rgbSwatch = "rgb(10,20,30)") := by
  have h0 := channel_eq data 0 data.r rfl
  have h1 := channel_eq data 1 data.g rfl
  have h2 := channel_eq data 2 data.b rfl
  refine ⟨?_, ?_, fun h => ?_⟩
  · simp only [renderResults, h0, h1, h2]
  · simp only [renderResults, h0, h1, h2]
  · simp only [renderResults, h, index, List.get?, Option.join, Option.bind, nullish]
    exact ⟨rfl, rfl⟩

/-- C4, on the payload that has `rgb = [10,20,30]` and no other field. -/
theorem C4_rgb_triple_preferred_witness :
    (renderResults ⟨none, none, none, some [some 10, some 20, some 30], none, none, none, none⟩
        emptyDom).rgbValues = "R 10 · G 20 · B 30" ∧
    (renderResults ⟨none, none, none, some [some 10, some 20, some 30], none, none, none, none⟩
        emptyDom).rgbSwatch = "rgb(10,20,30)" :=
  (C4_rgb_triple_preferred ⟨none, none, none, some [some 10, some 20, some 30], none, none, none,
    none⟩ emptyDom).2.2 rfl

/-- C5: for every payload without `recommendations` the renderer returns, and in what it
returns each of the three palette entries has the value "—", each of the four panels has "—"
for tops, bottoms and shoes, both hairstyle fields are "—", the four accessories entries are
"—", and the shopping-links region has no child. -/
theorem C5_missing_recommendations (data : Payload) (dom : RenderDom)
    (h : data.recommendations = none) :
    ∃ out, renderResults data dom = out ∧
      out.paletteGrid.map (fun el => el.innerHTML)
        = [some "<strong>Primary</strong><span>—</span>",
           some "<strong>Secondary</strong><span>—</span>",
           some "<strong>Accent</strong><span>—</span>"] ∧
      out.outfitTabs.map (fun el => el.textContent)
        = [some "Formal", some "Business", some "Casual", some "Party"] ∧
      out.outfitContent.map (fun el => (El.getAttribute el "data-code", el.innerHTML))
        = codes.map (fun code => (some code, some
            "<dl><dt>Tops</dt><dd>—</dd><dt>Bottoms</dt><dd>—</dd><dt>Shoes</dt><dd>—</dd></dl>")) ∧
      out.hairstyleSuggestion = "—" ∧
      out.maintenanceTips = "—" ∧
      out.accessoriesList
        = "<li><strong>Earrings:</strong> —</li><li><strong>Necklaces:</strong> —</li>"
          ++ "<li><strong>Bracelets:</strong> —</li><li><strong>Watches:</strong> —</li>" ∧
      out.shoppingLinks = [] := by
  refine ⟨_, rfl, ?_⟩
  simp only [renderResults, h]
  decide

/-- C5, on the payload without any field. -/
theorem C5_missing_recommendations_witness :
    (renderResults emptyPayload emptyDom).hairstyleSuggestion = "—" ∧
    (renderResults emptyPayload emptyDom).shoppingLinks = [] := by
  obtain ⟨out, hout, h⟩ := C5_missing_recommendations emptyPayload emptyDom rfl
  rw [hout]
  exact ⟨h.2.2.2.1, h.2.2.2.2.2.2⟩

theorem render_tabs (data : Payload) (dom : RenderDom) :
    (renderResults data dom).outfitTabs = tabsAt 0 ∧
    (renderResults data dom).outfitContent = panelsAt 0 (panelHtml data) ∧
    (renderResults data dom).tabListeners = dom.tabListeners + 1 := by
  refine ⟨rfl, rfl, rfl⟩

theorem tabListener_shape (t k : Nat) (html : Nat → Option String) (dom : RenderDom)
    (ht : t < 4) (hk : k < 4) (htabs : dom.outfitTabs = tabsAt k)
    (hpanels : dom.outfitContent = panelsAt k html) :
    (tabListener t dom).outfitTabs = tabsAt t ∧
    (tabListener t dom).outfitContent = panelsAt t html ∧
    (tabListener t dom).tabListeners = dom.tabListeners := by
  interval_cases t <;> interval_cases k <;>
    simp [tabListener, htabs, hpanels, tabsAt, panelsAt, tabEl, panelEl, hasClass, toggleClass,
      addClass, removeClass, El.getAttribute, List.enum, List.enumFrom, List.lookup]

theorem iterate_tabListener (t k : Nat) (html : Nat → Option String) (ht : t < 4) (hk : k < 4)
    (n : Nat) (dom : RenderDom) (htabs : dom.outfitTabs = tabsAt k)
    (hpanels : dom.outfitContent = panelsAt k html) :
    (Nat.iterate (tabListener t) (n + 1) dom).outfitTabs = tabsAt t ∧
    (Nat.iterate (tabListener t) (n + 1) dom).outfitContent = panelsAt t html := by
  induction n generalizing k dom with
  | zero =>
    have h := tabListener_shape t k html dom ht hk htabs hpanels
    exact ⟨h.1, h.2.1⟩
  | succ n ih =>
    have h := tabListener_shape t k html dom ht hk htabs hpanels
    rw [Function.iterate_succ_apply]
    exact ih t ht (tabListener t dom) h.1 h.2.1

theorem renderAll_snoc (dom : RenderDom) (ds : List Payload) (d : Payload) :
    renderAll dom (ds ++ [d]) = renderResults d (renderAll dom ds) := by
  simp [renderAll, List.foldl_append]

theorem renderAll_tabListeners (dom : RenderDom) (ds : List Payload) :
    (renderAll dom ds).tabListeners = dom.tabListeners + ds.length := by
  induction ds generalizing dom with
  | nil => rfl
  | cons d ds ih =>
    simp only [renderAll, List.foldl_cons, List.length_cons] at ih ⊢
    rw [ih]
    simp only [renderResults]
    omega

/-- C6: after `ds.length + 1` calls of `renderResults`, each of which has added one listener, a
click on the tab with `data-code` `c` leaves the class `active` on exactly the tab and exactly
the panel whose `data-code` is `c`, among the four tabs and four panels of the four dress
codes; the tabs and panels that result are those the same click gives after a single render of
the last payload, so the number of earlier calls plays no part. -/
theorem C6_tab_click (dom0 : RenderDom) (ds : List Payload) (d : Payload) (c : String)
    (hc : c ∈ codes) :
    (renderAll dom0 (ds ++ [d])).tabListeners = dom0.tabListeners + (ds.length + 1) ∧
    (∀ el ∈ (onTabClick (codes.indexOf c) (renderAll dom0 (ds ++ [d]))).outfitTabs,
      hasClass el.classList "active" = true ↔ El.getAttribute el "data-code" = some c) ∧
    (∀ el ∈ (onTabClick (codes.indexOf c) (renderAll dom0 (ds ++ [d]))).outfitContent,
      hasClass el.classList "active" = true ↔ El.getAttribute el "data-code" = some c) ∧
    (onTabClick (codes.indexOf c) (renderAll dom0 (ds ++ [d]))).outfitTabs.map
        (fun el => El.getAttribute el "data-code") = codes.map some ∧
    (onTabClick (codes.indexOf c) (renderAll dom0 (ds ++ [d]))).outfitContent.map
        (fun el => El.getAttribute el "data-code") = codes.map some ∧
    (onTabClick (codes.indexOf c) (renderAll dom0 (ds ++ [d]))).outfitTabs
      = (onTabClick (codes.indexOf c) (renderResults d emptyDom)).outfitTabs ∧
    (onTabClick (codes.indexOf c) (renderAll dom0 (ds ++ [d]))).outfitContent
      = (onTabClick (codes.indexOf c) (renderResults d emptyDom)).outfitContent := by
  have hlt : codes.indexOf c < 4 := by
    simp only [codes, List.mem_cons, List.mem_singleton, List.not_mem_nil, or_false] at hc
    rcases hc with h | h | h | h <;> subst h <;> decide
  have hn : (renderAll dom0 (ds ++ [d])).tabListeners = dom0.tabListeners + ds.length + 1 := by
    rw [renderAll_snoc]
    simp only [renderResults, renderAll_tabListeners]
  have hr := render_tabs d (renderAll dom0 ds)
  have hall := iterate_tabListener (codes.indexOf c) 0 (panelHtml d) hlt (by decide)
    (dom0.tabListeners + ds.length) (renderAll dom0 (ds ++ [d]))
    (by rw [renderAll_snoc]; exact hr.1) (by rw [renderAll_snoc]; exact hr.2.1)
  have hone := iterate_tabListener (codes.indexOf c) 0 (panelHtml d) hlt (by decide)
    0 (renderResults d emptyDom) (render_tabs d emptyDom).1 (render_tabs d emptyDom).2.1
  have htabs : (onTabClick (codes.indexOf c) (renderAll dom0 (ds ++ [d]))).outfitTabs
      = tabsAt (codes.indexOf c) := by
    simp only [onTabClick, hn]; exact hall.1
  have hpanels : (onTabClick (codes.indexOf c) (renderAll dom0 (ds ++ [d]))).outfitContent
      = panelsAt (codes.indexOf c) (panelHtml d) := by
    simp only [onTabClick, hn]; exact hall.2
  have htabs1 : (onTabClick (codes.indexOf c) (renderResults d emptyDom)).outfitTabs
      = tabsAt (codes.indexOf c) := hone.1
  have hpanels1 : (onTabClick (codes.indexOf c) (renderResults d emptyDom)).outfitContent
      = panelsAt (codes.indexOf c) (panelHtml d) := hone.2
  rw [htabs, hpanels, htabs1, hpanels1]
  refine ⟨by omega, ?_, ?_, ?_, ?_, rfl, rfl⟩
  all_goals
    simp only [codes, List.mem_cons, List.mem_singleton, List.not_mem_nil, or_false] at hc
    rcases hc with h | h | h | h <;> subst h <;>
      simp [tabsAt, panelsAt, tabEl, panelEl, hasClass, El.getAttribute, List.lookup, codes,
        List.indexOf, List.findIdx, List.findIdx.go]

/-- C6, for the tab "party" after three renders on the sample targets. -/
theorem C6_tab_click_witness :
    (onTabClick 3 (renderAll emptyDom ([emptyPayload, emptyPayload] ++ [emptyPayload]))).outfitTabs
      = (onTabClick 3 (renderResults emptyPayload emptyDom)).outfitTabs ∧
    (renderAll emptyDom ([emptyPayload, emptyPayload] ++ [emptyPayload])).tabListeners = 3 := by
  have h := C6_tab_click emptyDom [emptyPayload, emptyPayload] emptyPayload "party" (by decide)
  exact ⟨h.2.2.2.2.2.1, h.1⟩

theorem foldl_snoc_eq_map {α β : Type} (f : α → β) (l : List α) (start : List β) :
    l.foldl (fun els x => els ++ [f x]) start = start ++ l.map f := by
  induction l generalizing start with
  | nil => simp
  | cons x xs ih => simp [List.foldl_cons, ih]

/-- C7: after `renderResults(d1)` followed by `renderResults(d2)` the children of the palette,
outfit-tabs, outfit-content and shopping-links regions are those after `renderResults(d2)`
alone: 3 palette items, 4 tabs and 4 panels of which only the first is active, and one link per
key of the `shopping_links` of `d2`, labelled with that key. -/
theorem C7_rerender_replaces (dom : RenderDom) (d1 d2 : Payload) :
    (renderResults d2 (renderResults d1 dom)).paletteGrid = (renderResults d2 dom).paletteGrid ∧
    (renderResults d2 (renderResults d1 dom)).outfitTabs = (renderResults d2 dom).outfitTabs ∧
    (renderResults d2 (renderResults d1 dom)).outfitContent
      = (renderResults d2 dom).outfitContent ∧
    (renderResults d2 (renderResults d1 dom)).shoppingLinks
      = (renderResults d2 dom).shoppingLinks ∧
    (renderResults d2 (renderResults d1 dom)).paletteGrid.length = 3 ∧
    (renderResults d2 (renderResults d1 dom)).outfitTabs.length = 4 ∧
    (renderResults d2 (renderResults d1 dom)).outfitContent.length = 4 ∧
    (renderResults d2 (renderResults d1 dom)).outfitTabs.map
        (fun el => hasClass el.classList "active") = [true, false, false, false] ∧
    (renderResults d2 (renderResults d1 dom)).outfitContent.map
        (fun el => hasClass el.classList "active") = [true, false, false, false] ∧
    (renderResults d2 (renderResults d1 dom)).shoppingLinks.map (fun el => el.textContent)
      = (((d2.recommendations.getD Recommendations.empty).shopping_links.getD []).map
          fun entry => some entry.1) := by
  refine ⟨rfl, rfl, rfl, rfl, rfl, rfl, rfl, ?_, ?_, ?_⟩
  · rw [(render_tabs d2 _).1]; decide
  · rw [(render_tabs d2 _).2.1]
    simp [panelsAt, panelEl, hasClass]
  · simp only [renderResults, foldl_snoc_eq_map]
    simp [Function.comp_def]

/-- C8, as stated, fails: when the request is rejected with the message "Failed to fetch" there is
no server text, yet the notification shows that message, which is neither of the two fallback
texts. -/
theorem C8_counterexample :
    settle (Response.rejected "Failed to fetch") = Except.error "Failed to fetch" ∧
    (onResponse (Response.rejected "Failed to fetch") page).errorToast
      = some ⟨"Failed to fetch", ["toast", "visible"]⟩ ∧
    "Failed to fetch" ∉ genericFallbacks :=
  ⟨rfl, by decide, by decide⟩

/-- C8, amended: for every response that takes the failure path, the loading indicator gets the
class `hidden`, the selection is untouched, the submit control ends up enabled exactly when the
selection is non-empty, and the toast element is shown with the text of `failureText`: the
`error` text of the body or "Request failed" for a failure status, the message of the exception
or "Something went wrong. Please try again." for a rejected request or an unparsable body. -/
theorem C8_failure_path (resp : Response) (message : String) (s : UI)
    (hfail : settle resp = Except.error message) :
    (onResponse resp s).loading = s.loading.map (fun cl => addClass cl "hidden") ∧
    (∀ cl, (onResponse resp s).loading = some cl → hasClass cl "hidden" = true) ∧
    (onResponse resp s).selectedFile = s.selectedFile ∧
    (onResponse resp s).submitBtn = s.submitBtn.map (fun _ => s.selectedFile.isNone) ∧
    (∀ disabled, (onResponse resp s).submitBtn = some disabled →
      (disabled = false ↔ s.selectedFile ≠ none)) ∧
    (onResponse resp s).errorToast = s.errorToast.map (fun t =>
      ⟨failureText resp, addClass (removeClass t.classList "hidden") "visible"⟩) := by
  have hmsg : strOr (some message) "Something went wrong. Please try again." = failureText resp := by
    cases resp with
    | rejected m => simp [settle] at hfail; subst hfail; rfl
    | http ok body =>
      cases body with
      | error m => simp [settle] at hfail; subst hfail; rfl
      | ok data =>
        cases ok with
        | true => simp [settle] at hfail
        | false =>
          simp [settle] at hfail
          subst hfail
          simp only [failureText, strOr]
          cases data.error with
          | none => simp
          | some e => by_cases he : e = "" <;> simp [he]
  have hon : onResponse resp s = onFailure message s := by simp [onResponse, hfail]
  rw [hon]
  cases ht : s.errorToast with
  | none =>
    cases hb : s.submitBtn <;> cases hl : s.loading <;> cases hf : s.selectedFile <;>
      simp [onFailure, enableSubmit, showToast, ht, hb, hl, hf, hasClass_addClass]
  | some t =>
    cases hb : s.submitBtn <;> cases hl : s.loading <;> cases hf : s.selectedFile <;>
      simp [onFailure, enableSubmit, showToast, ht, hb, hl, hf, hasClass_addClass, hmsg]

/-- C8, amended, on the sample page with a photo selected and a failure status whose body
carries the text "No face detected". -/
theorem C8_failure_path_witness :
    (onResponse
        (Response.http false (Except.ok ⟨none, none, none, none, none, none, none,
          some "No face detected"⟩))
        (pickFiles [photo] page)).errorToast
      = some ⟨"No face detected", ["toast", "visible"]⟩ ∧
    (onResponse
        (Response.http false (Except.ok ⟨none, none, none, none, none, none, none,
          some "No face detected"⟩))
        (pickFiles [photo] page)).submitBtn = some false := by
  have h := C8_failure_path
    (Response.http false (Except.ok ⟨none, none, none, none, none, none, none,
      some "No face detected"⟩))
    "No face detected" (pickFiles [photo] page) rfl
  refine ⟨?_, ?_⟩
  · rw [h.2.2.2.2.2]; decide
  · rw [h.2.2.2.1]; decide

/-- C9 at the failing input: with one submission in flight and the submit control disabled,
picking another file (or dropping one) enables the control again, and a second submit then
issues a second request while the first is still in flight. -/
theorem C9_submit_reenabled_in_flight :
    (run page [Event.pick [photo], Event.submit]).inFlight = 1 ∧
    (run page [Event.pick [photo], Event.submit]).submitBtn = some true ∧
    (run page [Event.pick [photo], Event.submit, Event.pick [photo2]]).inFlight = 1 ∧
    (run page [Event.pick [photo], Event.submit, Event.pick [photo2]]).submitBtn = some false ∧
    (run page [Event.pick [photo], Event.submit, Event.drop (some [photo2])]).submitBtn
      = some false ∧
    (run page [Event.pick [photo], Event.submit, Event.pick [photo2], Event.submit]).inFlight
      = 2 ∧
    (run page [Event.pick [photo], Event.submit, Event.pick [photo2], Event.submit]).requests
      = [⟨photo, "Female"⟩, ⟨photo2, "Female"⟩] := by
  decide

/-- C10 at the failing input: the selection is emptied while a submission is in flight, which
leaves the submit control disabled; the success response then enables the control although the
selection is empty, whereas a failure response in the same state leaves it disabled. -/
theorem C10_success_enables_empty_selection :
    EmptyDisables (run page [Event.pick [photo], Event.submit, Event.pick []]) ∧
    (run page [Event.pick [photo], Event.submit, Event.pick []]).inFlight = 1 ∧
    (run page [Event.pick [photo], Event.submit, Event.pick [],
      Event.response (Response.http true (Except.ok emptyPayload))]).selectedFile = none ∧
    (run page [Event.pick [photo], Event.submit, Event.pick [],
      Event.response (Response.http true (Except.ok emptyPayload))]).submitBtn = some false ∧
    ¬ EmptyDisables (run page [Event.pick [photo], Event.submit, Event.pick [],
      Event.response (Response.http true (Except.ok emptyPayload))]) ∧
    (run page [Event.pick [photo], Event.submit, Event.pick [],
      Event.response (Response.rejected "Failed to fetch")]).submitBtn = some true := by
  refine ⟨fun _ => by decide, by decide, by decide, by decide, fun h => ?_, by decide⟩
  exact h (by decide) (by decide)

/-! ## The selection invariant, turn by turn -/

theorem emptyDisables_enableSubmit (s : UI) : EmptyDisables (enableSubmit s) := by
  intro h
  simp only [enableSubmit] at h ⊢
  cases hb : s.submitBtn <;> simp [h]

theorem emptyDisables_setFile (file : Option File) (s : UI) : EmptyDisables (setFile file s) := by
  unfold setFile
  cases hd : s.dropzone with
  | none => exact emptyDisables_enableSubmit _
  | some dz => cases file <;> exact emptyDisables_enableSubmit _

theorem emptyDisables_showToast (m : String) (s : UI) (h : EmptyDisables s) :
    EmptyDisables (showToast m s) := by
  unfold showToast
  cases ht : s.errorToast <;> exact h

theorem emptyDisables_onDrop (files : Option (List File)) (s : UI) (h : EmptyDisables s) :
    EmptyDisables (onDrop files s) := by
  unfold onDrop
  cases hd : s.dropzone with
  | none => exact h
  | some dz =>
    rcases files with _ | _ | ⟨f, rest⟩
    · exact h
    · exact h
    · simp only
      split
      · exact emptyDisables_showToast _ _ h
      · split
        · exact emptyDisables_showToast _ _ h
        · intro hsel
          exact emptyDisables_setFile (some f) _ hsel

theorem emptyDisables_onSubmit (s : UI) (h : EmptyDisables s) : EmptyDisables (onSubmit s) := by
  unfold onSubmit
  cases hf : s.form with
  | none => exact h
  | some form =>
    cases hs : s.selectedFile with
    | none => exact h
    | some file => intro hsel; simp [hs] at hsel

theorem emptyDisables_onFailure (m : String) (s : UI) : EmptyDisables (onFailure m s) := by
  unfold onFailure
  have h := emptyDisables_enableSubmit
    { s with
      loading := s.loading.map fun cl => addClass cl "hidden"
      submitBtn := s.submitBtn.map fun _ => false }
  cases ht : s.errorToast with
  | none => simpa [enableSubmit, ht] using h
  | some t =>
    have h2 := emptyDisables_showToast (strOr (some m) "Something went wrong. Please try again.") _ h
    simpa [enableSubmit, ht] using h2

/-- Every turn of the event loop other than a success response keeps the invariant. -/
theorem emptyDisables_step (s : UI) (e : Event) (h : EmptyDisables s)
    (hne : ∀ resp data, e = Event.response resp → settle resp ≠ Except.ok data) :
    EmptyDisables (step s e) := by
  cases e with
  | pick files =>
    simp only [step, pickFiles, onChange]
    cases hfi : s.fileInput with
    | none => simpa [hfi] using h
    | some fi => cases files <;> exact emptyDisables_setFile _ _
  | drop files => exact emptyDisables_onDrop files s h
  | dragover => exact h
  | dragleave => exact h
  | submit =>
    simp only [step]
    split
    · exact h
    · exact emptyDisables_onSubmit s h
  | response resp =>
    simp only [step]
    split
    · exact h
    · cases hs : settle resp with
      | ok data => exact absurd hs (hne resp data rfl)
      | error m => simp only [onResponse, hs]; exact emptyDisables_onFailure m _
  | tabClick t => exact h
  | toastTimeout => exact h

end Stylesenses
